import Mathlib

/-!
Verification of the processor resolver (`transformers/models/auto/processing_auto.py`)
and the wav2vec2 checkpoint weight mapper
(`transformers/models/wav2vec2/convert_wav2vec2_original_pytorch_checkpoint_to_pytorch.py`).

The Python code is shallowly embedded: string manipulation is modelled on
`List Char` with Python `str.split` semantics, tensors carry only their shape
and an abstract identity tag, models are finite attribute maps, and every
fallible operation returns `Except String`.
-/

set_option maxRecDepth 4000

deriving instance DecidableEq for Except

/-! ## Python string primitives -/

/-- Python `pat in s` substring test: `isSub p l` is true iff the character
list `p` occurs contiguously inside `l` (the empty pattern always occurs). -/
def isSub (p : List Char) : List Char → Bool
  | [] => p.isEmpty
  | c :: rest => p.isPrefixOf (c :: rest) || isSub p rest

/-- Python `pat in s` on strings. -/
def strContains (s pat : String) : Bool :=
  isSub pat.toList s.toList

/-- Python `s.endswith(pat)`. -/
def strEndsWith (s pat : String) : Bool :=
  List.isPrefixOf pat.toList.reverse s.toList.reverse

/-- Fuelled worker for Python `str.split(sep)` with a non-empty separator:
splits on every non-overlapping occurrence of `sep`, left to right, keeping
empty pieces. The fuel is an upper bound on the number of steps. -/
def splitGo (sep : List Char) : Nat → List Char → List Char → List (List Char)
  | 0, rest, acc => [acc.reverse ++ rest]
  | _ + 1, [], acc => [acc.reverse]
  | fuel + 1, c :: rest, acc =>
    if sep.isPrefixOf (c :: rest) then
      acc.reverse :: splitGo sep fuel (List.drop sep.length (c :: rest)) []
    else
      splitGo sep fuel rest (c :: acc)

/-- Python `s.split(sep)` for a non-empty separator. -/
def pySplit (s sep : String) : List String :=
  (splitGo sep.toList (s.toList.length + 1) s.toList []).map (fun cs => String.mk cs)

/-- Decimal digit value of a character, if it is a digit. -/
def digitVal (c : Char) : Option Nat :=
  if 48 ≤ c.toNat && c.toNat ≤ 57 then some (c.toNat - 48) else none

/-- Accumulating decimal parser over a character list. -/
def parseNatGo : List Char → Nat → Option Nat
  | [], acc => some acc
  | c :: rest, acc =>
    match digitVal c with
    | some d => parseNatGo rest (acc * 10 + d)
    | none => none

/-- Python `int(s)` restricted to the non-negative decimal numerals that
appear in checkpoint parameter names; anything else is a parse failure. -/
def pyToNat (s : String) : Option Nat :=
  match s.toList with
  | [] => none
  | l => parseNatGo l 0

/-- Python `l[-2]` on a list of strings: the second element from the end,
raising `IndexError` when the list has fewer than two elements. -/
def pyGetNeg2 (l : List String) : Except String String :=
  if l.length ≥ 2 then .ok (l.getD (l.length - 2) "") else .error "IndexError: list index out of range"

/-- Join a list of strings with a separator (used to model Python
`str.replace` through `split` and re-join). -/
def joinWith (sep : String) : List String → String
  | [] => ""
  | [a] => a
  | a :: b :: rest => a ++ sep ++ joinWith sep (b :: rest)

/-- Python `pat.replace("*", idx)`: every occurrence of `*` is replaced. -/
def replaceStar (pat idx : String) : String :=
  joinWith idx (pySplit pat "*")

/-- Substring containment as a proposition: `t` occurs in `s`. -/
def strContainsStr (s t : String) : Prop :=
  ∃ a b : String, s = a ++ t ++ b

theorem strAppend_assoc (a b c : String) : a ++ b ++ c = a ++ (b ++ c) :=
  String.ext (by simp [String.data_append, List.append_assoc])

theorem strAppend_empty (a : String) : a ++ "" = a :=
  String.ext (by simp [String.data_append])

theorem strEmpty_append (a : String) : "" ++ a = a :=
  String.ext (by simp [String.data_append])

/-! ## Tensors and the destination model -/

/-- A tensor is modelled by its shape and an abstract identity tag (the
numerical payload is irrelevant to the mapper, which only copies values and
compares shapes). -/
structure Tensor where
  shape : List Nat
  tag : Nat
deriving DecidableEq, Repr

/-- Python `value[0]`: drops the leading dimension; raises `IndexError`
on a zero-dimensional tensor. -/
def tensorIndex0 (t : Tensor) : Except String Tensor :=
  match t.shape with
  | [] => .error "IndexError: too many indices"
  | _ :: tailShape => .ok ⟨tailShape, t.tag⟩

/-- A `conv` or `layer_norm` submodule of a feature-extractor conv layer:
a weight parameter and a bias parameter. -/
structure ConvParams where
  weight : Tensor
  bias : Tensor
deriving DecidableEq, Repr

/-- One entry of `feature_extractor.conv_layers`. -/
structure ConvLayer where
  conv : ConvParams
  layer_norm : ConvParams
deriving DecidableEq, Repr

/-- The generic part of the destination model: a finite map from dotted
attribute paths to tensors (the reflective `getattr` walk of the source is
modelled as lookup of the full dotted path). -/
def HfFlat := List (String × Tensor)
deriving DecidableEq

def assocLookup (m : HfFlat) (k : String) : Option Tensor :=
  (m.find? (fun p => p.1 == k)).map (fun p => p.2)

def assocSet (m : HfFlat) (k : String) (v : Tensor) : HfFlat :=
  m.map (fun p => if p.1 == k then (k, v) else p)

def hasPath (m : HfFlat) (k : String) : Bool :=
  m.any (fun p => p.1 == k)

/-! ## Static tables of the weight mapper -/

/-- Table `MAPPING` of the conversion script: source substring to destination
dotted path, in source order (first match wins). -/
def MAPPING : List (String × String) :=
  [("post_extract_proj", "feature_projection.projection"),
   ("encoder.pos_conv.0", "encoder.pos_conv_embed.conv"),
   ("self_attn.k_proj", "encoder.layers.*.attention.k_proj"),
   ("self_attn.v_proj", "encoder.layers.*.attention.v_proj"),
   ("self_attn.q_proj", "encoder.layers.*.attention.q_proj"),
   ("self_attn.out_proj", "encoder.layers.*.attention.out_proj"),
   ("self_attn_layer_norm", "encoder.layers.*.layer_norm"),
   ("fc1", "encoder.layers.*.feed_forward.intermediate_dense"),
   ("fc2", "encoder.layers.*.feed_forward.output_dense"),
   ("final_layer_norm", "encoder.layers.*.final_layer_norm"),
   ("encoder.layer_norm", "encoder.layer_norm"),
   ("adapter_layer", "encoder.layers.*.adapter_layer"),
   ("w2v_model.layer_norm", "feature_projection.layer_norm"),
   ("quantizer.weight_proj", "quantizer.weight_proj"),
   ("quantizer.vars", "quantizer.codevectors"),
   ("project_q", "project_q"),
   ("final_proj", "project_hid"),
   ("w2v_encoder.proj", "lm_head"),
   ("mask_emb", "masked_spec_embed"),
   ("pooling_layer.linear", "projector"),
   ("pooling_layer.projection", "classifier")]

/-- Table `TOP_LEVEL_KEYS` of the conversion script. -/
def TOP_LEVEL_KEYS : List String :=
  ["lm_head", "quantizer.weight_proj", "quantizer.codevectors", "project_q",
   "project_hid", "projector", "classifier"]

/-- Table `PARAM_MAPPING` of the conversion script. -/
def PARAM_MAPPING : List (String × String) :=
  [("W_a", "linear_1.weight"),
   ("W_b", "linear_2.weight"),
   ("b_a", "linear_1.bias"),
   ("b_b", "linear_2.bias"),
   ("ln_W", "norm.weight"),
   ("ln_b", "norm.bias")]

def paramAssocLookup (l : List (String × String)) (k : String) : Option String :=
  (l.find? (fun p => p.1 == k)).map (fun p => p.2)

example : pySplit "encoder.layers.3." "." = ["encoder", "layers", "3", ""] := by decide
example : strContains "a.fc1.b" "fc1" = true := by decide
example : strEndsWith "adapter.ln_W" "ln_W" = true := by decide
example : replaceStar "encoder.layers.*.x" "3" = "encoder.layers.3.x" := by decide

/-! ## The generic weight mapper: `set_recursively` -/

/-- Last dot-separated segment of a name (`full_name.split(".")[-1]`). -/
def lastSegment (s : String) : String :=
  (pySplit s ".").getLastD ""

/-- Does some `PARAM_MAPPING` key occur as a suffix of the source name
(the loop `for param_key in PARAM_MAPPING: if full_name.endswith(...)`). -/
def paramSuffixHit (full_name : String) : Bool :=
  PARAM_MAPPING.any (fun p => strEndsWith full_name p.1)

/-- The weight type after the `PARAM_MAPPING` pass of `set_recursively`:
it becomes `"param"` when a compatibility-layer suffix matches. -/
def effectiveWeightType (full_name : String) (weightType : Option String) : Option String :=
  if paramSuffixHit full_name then some "param" else weightType

/-- Resolution phase of `set_recursively`: computes the destination attribute
path and the value to compare and assign (after the index-0 reduction in the
compatibility-layer `"param"` case, and after the `weight_g`/`weight_v`
parametrizations fallback). -/
def resolveTarget (key : String) (value : Tensor) (full_name : String)
    (weightType : Option String) (m : HfFlat) : Except String (String × Tensor) :=
  if paramSuffixHit full_name then
    match paramAssocLookup PARAM_MAPPING (lastSegment full_name) with
    | none => .error "KeyError"
    | some hfParamName => do
        let v ← tensorIndex0 value
        .ok (key ++ "." ++ hfParamName, v)
  else
    match weightType with
    | some "weight_g" =>
        .ok ((if hasPath m (key ++ ".weight_g") then key ++ ".weight_g"
              else key ++ ".parametrizations.weight.original0"), value)
    | some "weight_v" =>
        .ok ((if hasPath m (key ++ ".weight_v") then key ++ ".weight_v"
              else key ++ ".parametrizations.weight.original1"), value)
    | some w => .ok (key ++ "." ++ w, value)
    | none => .ok (key, value)

/-- Rendering of the Python conditional expression joining key and weight type with a dot when a weight type is present, else the empty string. -/
def wtRender (key : String) (wt : Option String) : String :=
  match wt with
  | some w => key ++ "." ++ w
  | none => ""

/-- The shape-mismatch message of `set_recursively`. -/
def shapeMsg (key : String) (wt : Option String) (hfShape vShape : List Nat)
    (full_name : String) : String :=
  "Shape of hf " ++ wtRender key wt ++ " is " ++ toString hfShape ++
    ", but should be " ++ toString vShape ++ " for " ++ full_name

/-- Function `set_recursively` of the conversion script: walk the dotted destination
path, validate the shape, then assign. Raises (`Except.error`) on a missing
attribute, a missing `PARAM_MAPPING` entry, or a shape mismatch. -/
def set_recursively (key : String) (value : Tensor) (full_name : String)
    (weightType : Option String) (m : HfFlat) : Except String HfFlat := do
  let pv ← resolveTarget key value full_name weightType m
  match assocLookup m pv.1 with
  | none => .error "AttributeError"
  | some target =>
    if target.shape ≠ pv.2.shape then
      .error (shapeMsg key (effectiveWeightType full_name weightType) target.shape pv.2.shape full_name)
    else
      .ok (assocSet m pv.1 pv.2)

/-! ## The substitution pass: `load_wav2vec2_layer` -/

/-- The prefix added to non-top-level destination paths
(`mapped_key = "wav2vec2." + mapped_key if mapped_key not in TOP_LEVEL_KEYS ...`). -/
def addRootKey (mapped : String) : String :=
  if TOP_LEVEL_KEYS.contains mapped then mapped else "wav2vec2." ++ mapped

/-- The match condition of the `MAPPING` loop:
`key in name or key.split("w2v_model.")[-1] == name.split(".")[0]`. -/
def mappingCond (name : String) (p : String × String) : Bool :=
  strContains name p.1 || ((pySplit p.1 "w2v_model.").getLastD "" == (pySplit name ".").headD "")

/-- First entry of the substitution table matched by the source name, paired
with its destination path after the `wav2vec2.` prefix step. -/
def findMatch : List (String × String) → String → Option (String × String)
  | [], _ => none
  | p :: rest, name =>
    if mappingCond name p then some (p.1, addRootKey p.2) else findMatch rest name

/-- Wildcard resolution: when the destination contains `*`, replace it by the
numeric token extracted as `name.split(key)[0].split(".")[-2]`. -/
def resolveMapped (name key mk : String) : Except String String :=
  if strContains mk "*" then
    (pyGetNeg2 (pySplit ((pySplit name key).headD "") ".")).map (replaceStar mk)
  else
    .ok mk

/-- The fully resolved destination path for a source name, when some
substitution-table entry matches. -/
def destinationOf (name : String) : Option (Except String String) :=
  match findMatch MAPPING name with
  | none => none
  | some p => some (resolveMapped name p.1 p.2)

/-- The weight-type classification from substrings of the source name. -/
def weightTypeOf (name : String) : Option String :=
  if strContains name "weight_g" then some "weight_g"
  else if strContains name "weight_v" then some "weight_v"
  else if strContains name "bias" then some "bias"
  else if strContains name "weight" then some "weight"
  else none

/-- Function `load_wav2vec2_layer` of the conversion script (the `hf_model` branch):
returns the updated model and the `is_used` flag. -/
def load_wav2vec2_layer (name : String) (value : Tensor) (m : HfFlat) :
    Except String (HfFlat × Bool) :=
  match findMatch MAPPING name with
  | none => .ok (m, false)
  | some p => do
      let mk2 ← resolveMapped name p.1 p.2
      let m2 ← set_recursively mk2 value name (weightTypeOf name) m
      .ok (m2, true)

/-! ## The convolutional pass: `load_conv_layer` -/

/-- The suffix of the source name after `conv_layers.`
(`full_name.split("conv_layers.")[-1]`). -/
def convName (full_name : String) : String :=
  (pySplit full_name "conv_layers.").getLastD ""

/-- The dot-separated items of the conv suffix. -/
def convItems (full_name : String) : List String :=
  pySplit (convName full_name) "."

/-- Python `int(items[i])` for the layer and type indices. -/
def convIndex (full_name : String) (i : Nat) : Except String Nat :=
  if (convItems full_name).length ≤ i then .error "IndexError: list index out of range"
  else
    match pyToNat ((convItems full_name).getD i "") with
    | some n => .ok n
    | none => .error "ValueError: invalid literal for int"

/-- Indexing `feature_extractor.conv_layers[layer_id]`. -/
def getConvLayer (fe : List ConvLayer) (i : Nat) : Except String ConvLayer :=
  match fe[i]? with
  | some cl => .ok cl
  | none => .error "IndexError: list index out of range"

/-- The shape-mismatch message of `load_conv_layer`. -/
def convShapeMsg (full_name : String) (vShape destShape : List Nat) : String :=
  full_name ++ " has size " ++ toString vShape ++ ", but " ++ toString destShape ++ " was found."

/-- The guard of the layer-norm branch of `load_conv_layer`:
`(type_id == 2 and not use_group_norm) or (type_id == 2 and layer_id == 0 and use_group_norm)`. -/
def normBranchCond (type_id layer_id : Nat) (useGroupNorm : Bool) : Bool :=
  (type_id == 2 && !useGroupNorm) || (type_id == 2 && layer_id == 0 && useGroupNorm)

/-- Function `load_conv_layer` of the conversion script: returns the updated feature
extractor and the updated unused-weights list. -/
def load_conv_layer (full_name : String) (value : Tensor) (fe : List ConvLayer)
    (unused : List String) (useGroupNorm : Bool) :
    Except String (List ConvLayer × List String) := do
  let name := convName full_name
  let layer_id ← convIndex full_name 0
  let type_id ← convIndex full_name 1
  if type_id == 0 then
    if strContains name "bias" then do
      let cl ← getConvLayer fe layer_id
      if value.shape ≠ cl.conv.bias.shape then
        .error (convShapeMsg full_name value.shape cl.conv.bias.shape)
      else
        .ok (fe.set layer_id { cl with conv := { cl.conv with bias := value } }, unused)
    else if strContains name "weight" then do
      let cl ← getConvLayer fe layer_id
      if value.shape ≠ cl.conv.weight.shape then
        .error (convShapeMsg full_name value.shape cl.conv.weight.shape)
      else
        .ok (fe.set layer_id { cl with conv := { cl.conv with weight := value } }, unused)
    else
      .ok (fe, unused)
  else if normBranchCond type_id layer_id useGroupNorm then
    if strContains name "bias" then do
      let cl ← getConvLayer fe layer_id
      if value.shape ≠ cl.layer_norm.bias.shape then
        .error (convShapeMsg full_name value.shape cl.layer_norm.bias.shape)
      else
        .ok (fe.set layer_id { cl with layer_norm := { cl.layer_norm with bias := value } }, unused)
    else if strContains name "weight" then do
      let cl ← getConvLayer fe layer_id
      if value.shape ≠ cl.layer_norm.weight.shape then
        .error (convShapeMsg full_name value.shape cl.layer_norm.weight.shape)
      else
        .ok (fe.set layer_id { cl with layer_norm := { cl.layer_norm with weight := value } }, unused)
    else
      .ok (fe, unused)
  else
    .ok (fe, unused ++ [full_name])

/-! ## The driver: `recursively_load_weights` -/

/-- The destination model as seen by `recursively_load_weights`: the generic
attribute map, the feature extractor, and `config.feat_extract_norm`. -/
structure Dest where
  flat : HfFlat
  featExt : List ConvLayer
  featExtractNorm : String
deriving DecidableEq

/-- One iteration of the loop of `recursively_load_weights`: a conv-layer
name is routed to `load_conv_layer` and always marked used; any other name
goes through `load_wav2vec2_layer` and is appended to the unused list when
no substitution-table entry matched. -/
def stepParam (d : Dest) (unused : List String) (p : String × Tensor) :
    Except String (Dest × List String) :=
  if strContains p.1 "conv_layers" then do
    let r ← load_conv_layer p.1 p.2 d.featExt unused (d.featExtractNorm == "group")
    .ok ({ d with featExt := r.1 }, r.2)
  else do
    let r ← load_wav2vec2_layer p.1 p.2 d.flat
    .ok ({ d with flat := r.1 }, if r.2 then unused else unused ++ [p.1])

/-- Folding `stepParam` over the source state dictionary. -/
def loadAll (items : List (String × Tensor)) (d : Dest) (unused : List String) :
    Except String (Dest × List String) :=
  match items with
  | [] => .ok (d, unused)
  | p :: rest => do
      let r ← stepParam d unused p
      loadAll rest r.1 r.2

/-- The result of a successful conversion run: the destination model, the
unused-weights list, and the warning messages emitted. -/
structure LoadOutcome where
  dest : Dest
  unused : List String
  warnings : List String
deriving DecidableEq

/-- Function `recursively_load_weights` of the conversion script: processes every
source parameter, then reports the unused-weights list in a single warning. -/
def recursively_load_weights (items : List (String × Tensor)) (d : Dest) :
    Except String LoadOutcome := do
  let r ← loadAll items d []
  .ok { dest := r.1, unused := r.2, warnings := ["Unused weights: " ++ toString r.2] }

/-! ## The processor resolver: data model -/

/-- The part of a configuration dictionary read by `AutoProcessor.from_pretrained`:
the `processor_class` field and the `auto_map["AutoProcessor"]` entry. -/
structure ConfigDict where
  processorClass : Option String
  autoProcessorEntry : Option String
deriving DecidableEq, Repr

/-- A model repository as seen by the resolver: for each probed configuration
file, whether it is present and what it declares. `preprocessorConfig` backs
both the preprocessor probe and the feature-extractor probe, which read the
same `FEATURE_EXTRACTOR_NAME` file. The full model configuration is modelled
as always loadable. -/
structure Repo where
  processorConfig : Option ConfigDict
  preprocessorConfig : Option ConfigDict
  videoProcessorConfig : Option ConfigDict
  tokenizerConfig : Option ConfigDict
  modelConfig : ConfigDict
  modelType : String
  repoId : String
deriving DecidableEq, Repr

/-- Table `PROCESSOR_MAPPING_NAMES` of `processing_auto.py`, in source order. -/
def PROCESSOR_MAPPING_NAMES : List (String × String) :=
  [("aimv2", "CLIPProcessor"),
   ("align", "AlignProcessor"),
   ("altclip", "AltCLIPProcessor"),
   ("aria", "AriaProcessor"),
   ("aya_vision", "AyaVisionProcessor"),
   ("bark", "BarkProcessor"),
   ("blip", "BlipProcessor"),
   ("blip-2", "Blip2Processor"),
   ("bridgetower", "BridgeTowerProcessor"),
   ("chameleon", "ChameleonProcessor"),
   ("chinese_clip", "ChineseCLIPProcessor"),
   ("clap", "ClapProcessor"),
   ("clip", "CLIPProcessor"),
   ("clipseg", "CLIPSegProcessor"),
   ("clvp", "ClvpProcessor"),
   ("colpali", "ColPaliProcessor"),
   ("colqwen2", "ColQwen2Processor"),
   ("deepseek_vl", "DeepseekVLProcessor"),
   ("deepseek_vl_hybrid", "DeepseekVLHybridProcessor"),
   ("dia", "DiaProcessor"),
   ("emu3", "Emu3Processor"),
   ("evolla", "EvollaProcessor"),
   ("flava", "FlavaProcessor"),
   ("fuyu", "FuyuProcessor"),
   ("gemma3", "Gemma3Processor"),
   ("gemma3n", "Gemma3nProcessor"),
   ("git", "GitProcessor"),
   ("glm4v", "Glm4vProcessor"),
   ("got_ocr2", "GotOcr2Processor"),
   ("granite_speech", "GraniteSpeechProcessor"),
   ("grounding-dino", "GroundingDinoProcessor"),
   ("groupvit", "CLIPProcessor"),
   ("hubert", "Wav2Vec2Processor"),
   ("idefics", "IdeficsProcessor"),
   ("idefics2", "Idefics2Processor"),
   ("idefics3", "Idefics3Processor"),
   ("instructblip", "InstructBlipProcessor"),
   ("instructblipvideo", "InstructBlipVideoProcessor"),
   ("internvl", "InternVLProcessor"),
   ("janus", "JanusProcessor"),
   ("kosmos-2", "Kosmos2Processor"),
   ("kyutai_speech_to_text", "KyutaiSpeechToTextProcessor"),
   ("layoutlmv2", "LayoutLMv2Processor"),
   ("layoutlmv3", "LayoutLMv3Processor"),
   ("llama4", "Llama4Processor"),
   ("llava", "LlavaProcessor"),
   ("llava_next", "LlavaNextProcessor"),
   ("llava_next_video", "LlavaNextVideoProcessor"),
   ("llava_onevision", "LlavaOnevisionProcessor"),
   ("markuplm", "MarkupLMProcessor"),
   ("mctct", "MCTCTProcessor"),
   ("mgp-str", "MgpstrProcessor"),
   ("mistral3", "PixtralProcessor"),
   ("mllama", "MllamaProcessor"),
   ("moonshine", "Wav2Vec2Processor"),
   ("oneformer", "OneFormerProcessor"),
   ("owlv2", "Owlv2Processor"),
   ("owlvit", "OwlViTProcessor"),
   ("paligemma", "PaliGemmaProcessor"),
   ("perception_lm", "PerceptionLMProcessor"),
   ("phi4_multimodal", "Phi4MultimodalProcessor"),
   ("pix2struct", "Pix2StructProcessor"),
   ("pixtral", "PixtralProcessor"),
   ("pop2piano", "Pop2PianoProcessor"),
   ("qwen2_5_omni", "Qwen2_5OmniProcessor"),
   ("qwen2_5_vl", "Qwen2_5_VLProcessor"),
   ("qwen2_audio", "Qwen2AudioProcessor"),
   ("qwen2_vl", "Qwen2VLProcessor"),
   ("sam", "SamProcessor"),
   ("sam_hq", "SamHQProcessor"),
   ("seamless_m4t", "SeamlessM4TProcessor"),
   ("sew", "Wav2Vec2Processor"),
   ("sew-d", "Wav2Vec2Processor"),
   ("shieldgemma2", "ShieldGemma2Processor"),
   ("siglip", "SiglipProcessor"),
   ("siglip2", "Siglip2Processor"),
   ("smolvlm", "SmolVLMProcessor"),
   ("speech_to_text", "Speech2TextProcessor"),
   ("speech_to_text_2", "Speech2Text2Processor"),
   ("speecht5", "SpeechT5Processor"),
   ("trocr", "TrOCRProcessor"),
   ("tvlt", "TvltProcessor"),
   ("tvp", "TvpProcessor"),
   ("udop", "UdopProcessor"),
   ("unispeech", "Wav2Vec2Processor"),
   ("unispeech-sat", "Wav2Vec2Processor"),
   ("video_llava", "VideoLlavaProcessor"),
   ("vilt", "ViltProcessor"),
   ("vipllava", "LlavaProcessor"),
   ("vision-text-dual-encoder", "VisionTextDualEncoderProcessor"),
   ("voxtral", "VoxtralProcessor"),
   ("wav2vec2", "Wav2Vec2Processor"),
   ("wav2vec2-bert", "Wav2Vec2Processor"),
   ("wav2vec2-conformer", "Wav2Vec2Processor"),
   ("wavlm", "Wav2Vec2Processor"),
   ("whisper", "WhisperProcessor"),
   ("xclip", "XCLIPProcessor")]

/-! ## The probe phase of `AutoProcessor.from_pretrained` -/

/-- Update of `processor_auto_map`: assigned only when the probed dictionary
declares an `auto_map["AutoProcessor"]` entry, otherwise kept. -/
def mergeAuto (pam : Option String) (d : ConfigDict) : Option String :=
  match d.autoProcessorEntry with
  | some a => some a
  | none => pam

/-- The ordered config probes of `AutoProcessor.from_pretrained`, exactly as
in the source: the processor config probe; then, while no class is found, the
preprocessor probe, falling through on file absence (not class absence) to
the video-processor probe and then to the feature-extractor probe (which
re-reads the same `FEATURE_EXTRACTOR_NAME` file as the preprocessor probe);
then then the tokenizer config probe. Returns `(processor_class, processor_auto_map)`
after the first five probes. -/
def probe5 (r : Repo) : Option String × Option String :=
  let s1 : Option String × Option String :=
    match r.processorConfig with
    | some d => (d.processorClass, mergeAuto none d)
    | none => (none, none)
  let s2 : Option String × Option String :=
    if s1.1.isNone then
      match r.preprocessorConfig with
      | some d => (d.processorClass, mergeAuto s1.2 d)
      | none =>
        match r.videoProcessorConfig with
        | some d => (d.processorClass, mergeAuto s1.2 d)
        | none =>
          -- the feature-extractor probe re-reads FEATURE_EXTRACTOR_NAME,
          -- which is known absent on this path
          match r.preprocessorConfig with
          | some d => (d.processorClass, mergeAuto s1.2 d)
          | none => (none, s1.2)
    else s1
  if s2.1.isNone then
    match r.tokenizerConfig with
    | some d => (d.processorClass, mergeAuto s2.2 d)
    | none => (none, s2.2)
  else s2

/-- The full probe phase: the five file probes, then — only when no class was
found — the full model configuration. Returns
`(processor_class, processor_auto_map, config_was_loaded)`. -/
def probePhase (r : Repo) : Option String × Option String × Bool :=
  let s3 := probe5 r
  if s3.1.isNone then
    (r.modelConfig.processorClass, mergeAuto s3.2 r.modelConfig, true)
  else
    (s3.1, s3.2, false)

/-! ## Class-name resolution and the full resolver -/

/-- The external collaborators of the resolver, abstracted: which modules
expose which attributes, the registry of dynamically registered processors,
the main-init fallback, the remote-code trust policy, and the outcomes of
the three final fallback loaders. -/
structure ResolveEnv where
  moduleHasAttr : String → String → Bool
  registeredProcessors : List String
  mainModuleHas : String → Bool
  userTrust : Option Bool
  trustPolicy : Option Bool → String → Bool → Bool → Option String → Bool
  tokenizerOk : Bool
  imageProcessorOk : Bool
  featureExtractorOk : Bool

/-- Function `processor_class_from_name`: scan the entries of `PROCESSOR_MAPPING_NAMES`
for a value containing the class name as a substring whose module exposes the
attribute; else scan the registered extension classes; else fall back to the
main init. The attribute fetched is always the one named `className`.
Modelled from the spec for the parts outside `src`: `model_type_to_module_name`
and the module contents are abstracted into `env.moduleHasAttr`, keyed by the
model type of the mapping. -/
def processor_class_from_name (env : ResolveEnv) (className : String) : Option String :=
  if PROCESSOR_MAPPING_NAMES.any (fun p => strContains p.2 className && env.moduleHasAttr p.1 className) then
    some className
  else if env.registeredProcessors.any (fun n => n == className) then
    some className
  else if env.mainModuleHas className then
    some className
  else
    none

/-- Modelled from the spec: membership of the configuration type in the
static mapping (`type(config) in PROCESSOR_MAPPING`; `_LazyAutoMapping` and
`CONFIG_MAPPING_NAMES` are outside `src`). Spec step 10 reads it as presence
of the model type in the static model-type table. -/
def typeInStaticMapping (t : String) : Bool :=
  PROCESSOR_MAPPING_NAMES.any (fun p => p.1 == t)

/-- The class mapped to a model type by the static table. -/
def mappedClassFor (t : String) : Option String :=
  (PROCESSOR_MAPPING_NAMES.find? (fun p => p.1 == t)).map (fun p => p.2)

/-- Extraction of `upstream_repo` from a remote-code reference
(`processor_auto_map.split("--")[0]` when `--` occurs). -/
def upstreamRepoOf (ref : String) : Option String :=
  if strContains ref "--" then some ((pySplit ref "--").headD "") else none

/-- What `AutoProcessor.from_pretrained` ends up returning on success. -/
inductive ResolvedProcessor where
  | classInstance (className : String)
  | remoteInstance (ref : String)
  | mappingInstance (className : String)
  | tokenizerInstance
  | imageProcessorInstance
  | featureExtractorInstance
deriving DecidableEq, Repr

/-- The observable outcome of a resolution: the returned value or the raised
error, whether `processor_class_from_name` scanned the entries of the static
table, and whether the configuration-type-keyed use of `PROCESSOR_MAPPING`
(membership test or lookup) was evaluated. -/
structure Outcome where
  res : Except String ResolvedProcessor
  scannedNameTable : Bool
  typeMappingLookup : Bool
deriving DecidableEq, Repr

/-- The lookup-failure message of `AutoProcessor.from_pretrained` (its
apostrophe is elided). -/
def unrecognizedMsg (repoId : String) : String :=
  "Unrecognized processing class in " ++ repoId ++
    ". Cannot instantiate a processor, a tokenizer, an image processor or a feature extractor for this model. Make sure the repository contains the files of at least one of those processing classes."

/-- Method `AutoProcessor.from_pretrained`: probe the config sources, resolve a
declared class name through `processor_class_from_name`, negotiate remote
code, fall back to the static mapping, then to a tokenizer, an image
processor and a feature extractor, and finally raise. -/
def from_pretrained (env : ResolveEnv) (r : Repo) : Outcome :=
  let probed := probePhase r
  let pc := probed.1
  let pam := probed.2.1
  let configLoaded := probed.2.2
  let resolved : Option String :=
    match pc with
    | some n => processor_class_from_name env n
    | none => none
  let scanned := pc.isSome
  let inMapping : Bool := configLoaded && typeInStaticMapping r.modelType
  -- `has_local_code = processor_class is not None or type(config) in PROCESSOR_MAPPING`;
  -- the membership test is short-circuited away when the class resolved
  let hasLocal : Bool := resolved.isSome || inMapping
  let lk : Bool := resolved.isNone
  let hasRemote : Bool := pam.isSome
  let trusted : Bool :=
    match pam with
    | some ref => env.trustPolicy env.userTrust r.repoId hasLocal hasRemote (upstreamRepoOf ref)
    | none => false
  if hasRemote && trusted then
    { res := .ok (.remoteInstance (pam.getD "")), scannedNameTable := scanned, typeMappingLookup := lk }
  else
    match resolved with
    | some c =>
        { res := .ok (.classInstance c), scannedNameTable := scanned, typeMappingLookup := lk }
    | none =>
        if inMapping then
          { res := .ok (.mappingInstance ((mappedClassFor r.modelType).getD "")),
            scannedNameTable := scanned, typeMappingLookup := true }
        else if env.tokenizerOk then
          { res := .ok .tokenizerInstance, scannedNameTable := scanned, typeMappingLookup := true }
        else if env.imageProcessorOk then
          { res := .ok .imageProcessorInstance, scannedNameTable := scanned, typeMappingLookup := true }
        else if env.featureExtractorOk then
          { res := .ok .featureExtractorInstance, scannedNameTable := scanned, typeMappingLookup := true }
        else
          { res := .error (unrecognizedMsg r.repoId), scannedNameTable := scanned, typeMappingLookup := true }

/-- The constructor `AutoProcessor.__init__`: always raises `OSError`. -/
structure AutoProcessorInstance where
  mk ::

/-- The result of calling `AutoProcessor()` directly. -/
def autoProcessorInit : Except String AutoProcessorInstance :=
  .error ("AutoProcessor is designed to be instantiated using the `AutoProcessor.from_pretrained(pretrained_model_name_or_path)` method.")

/-- Whether an init attempt produced an instance. -/
def initSucceeded (e : Except String AutoProcessorInstance) : Bool :=
  match e with
  | .ok _ => true
  | .error _ => false

/-! ## Helper lemmas about the resolver -/

theorem probePhase_loaded (r : Repo) (h : (probePhase r).1 = none) :
    (probePhase r).2.2 = true := by
  unfold probePhase at h ⊢
  by_cases hp : (probe5 r).1.isNone
  · simp [hp]
  · simp [hp] at h
    simp [h] at hp

theorem processorClassFromName_some (env : ResolveEnv) (n m : String)
    (h : processor_class_from_name env n = some m) : m = n := by
  unfold processor_class_from_name at h
  split at h
  · simp_all
  · split at h
    · simp_all
    · split at h <;> simp_all

/-! ## Claim C1 -/

/-- The reading of the probe chain in claim C1: all six sources consulted in
order, and the first dictionary that declares a processor class wins. -/
def firstDeclaredClass : List (Option ConfigDict) → Option String
  | [] => none
  | none :: rest => firstDeclaredClass rest
  | some d :: rest =>
    match d.processorClass with
    | some c => some c
    | none => firstDeclaredClass rest

/-- The fallback chain exactly as claim C1 words it (processor config,
preprocessor config, video-processor config, feature-extractor config —
which is the same `FEATURE_EXTRACTOR_NAME` file as the preprocessor probe —
tokenizer config, full model configuration; first declared class wins). -/
def claimChain (r : Repo) : Option String :=
  firstDeclaredClass
    [r.processorConfig, r.preprocessorConfig, r.videoProcessorConfig,
     r.preprocessorConfig, r.tokenizerConfig, some r.modelConfig]

/-- The last two probes of the amended chain: tokenizer config, then the
full model configuration, entered whenever no class has been found. -/
def tailProbe (found : Option String) (r : Repo) : Option String :=
  match found with
  | some c => some c
  | none =>
    match r.tokenizerConfig with
    | some d =>
      match d.processorClass with
      | some c => some c
      | none => r.modelConfig.processorClass
    | none => r.modelConfig.processorClass

/-- The preprocessor/video/feature-extractor probe group of the amended
chain: fall-through inside the group is on absence of the config file, and
the feature-extractor probe re-reads the file the preprocessor probe read. -/
def groupProbe (r : Repo) : Option String :=
  match r.preprocessorConfig with
  | some d => tailProbe d.processorClass r
  | none =>
    match r.videoProcessorConfig with
    | some d => tailProbe d.processorClass r
    | none => tailProbe none r

/-- Amended claim C1: the probes run in the stated order and the first
declared class wins, except that inside the preprocessor/video/
feature-extractor group the fall-through is on file absence, not on the
absence of a declared class. -/
def amendedProbeChain (r : Repo) : Option String :=
  match r.processorConfig with
  | some d =>
    match d.processorClass with
    | some c => some c
    | none => groupProbe r
  | none => groupProbe r

/-- A repository whose preprocessor config file exists but declares no
processor class, while the video-processor config declares one. -/
def c1Repo : Repo :=
  ⟨none, some ⟨none, none⟩, some ⟨some "VideoDeclaredProcessor", none⟩, none,
   ⟨none, none⟩, "zzz", "user/model"⟩

/-- C1 counterexample: on `c1Repo` the claimed first-declared-class-wins
chain yields the video-declared class, but the code skips the
video-processor probe (the preprocessor file is present) and finds no class
at all, so the claimed probe discipline is violated. -/
theorem c1_probe_chain_counterexample :
    claimChain c1Repo = some "VideoDeclaredProcessor" ∧
    (probePhase c1Repo).1 = none ∧
    decide ((probePhase c1Repo).1 = claimChain c1Repo) = false := by
  decide

/-- C1 (amended): the declared-class probe of `AutoProcessor.from_pretrained`
equals the amended chain: probes in the order processor config, preprocessor
config, video-processor config, feature-extractor config, tokenizer config,
full model configuration, first declared class wins and later probes are not
consulted after a success, but within the preprocessor/video/feature-extractor
group a present file without a declared class ends the group (fall-through
there is on file absence). -/
theorem c1_probe_chain_amended (r : Repo) : (probePhase r).1 = amendedProbeChain r := by
  obtain ⟨pc, pp, vp, tk, mc, mt, rid⟩ := r
  rcases pc with _ | ⟨_ | c1, a1⟩ <;>
    rcases pp with _ | ⟨_ | c2, a2⟩ <;>
    rcases vp with _ | ⟨_ | c3, a3⟩ <;>
    rcases tk with _ | ⟨_ | c4, a4⟩ <;>
    rcases mc with ⟨_ | c5, a5⟩ <;>
    simp [probePhase, probe5, amendedProbeChain, groupProbe, tailProbe, mergeAuto]

/-! ## Claim C2 -/

/-- An environment in which only the `wav2vec2` module exposes
`Wav2Vec2Processor`, no extension classes are registered, and remote code is
never trusted. -/
def wavEnv : ResolveEnv :=
  ⟨fun mt c => mt == "wav2vec2" && c == "Wav2Vec2Processor", [], fun _ => false, none,
   fun _ _ _ _ _ => false, false, false, false⟩

/-- A repository whose processor config declares `Wav2Vec2Processor`. -/
def wavRepo : Repo :=
  ⟨some ⟨some "Wav2Vec2Processor", none⟩, none, none, none, ⟨none, none⟩,
   "wav2vec2", "facebook/wav2vec2-base-960h"⟩

/-- C2 counterexample: resolving a processor config that declares
`Wav2Vec2Processor` does return exactly that class, but
`processor_class_from_name` scans the entries of the static
model-type-to-class table to locate the defining module, so the table is
consulted during the resolution. -/
theorem c2_table_scanned_counterexample :
    (from_pretrained wavEnv wavRepo).res = .ok (.classInstance "Wav2Vec2Processor") ∧
    (from_pretrained wavEnv wavRepo).scannedNameTable = true := by
  exact ⟨rfl, rfl⟩

/-- C2 (amended): when the processor config declares `Wav2Vec2Processor`
and the class is importable, the resolver returns an instance of exactly
that class; the configuration-type-keyed lookup in the static mapping is
never evaluated, although the resolution does scan the entries of the
static table to find the module defining the class. -/
theorem c2_declared_class_resolution (env : ResolveEnv) (r : Repo)
    (h1 : r.processorConfig = some ⟨some "Wav2Vec2Processor", none⟩)
    (h2 : (processor_class_from_name env "Wav2Vec2Processor").isSome = true) :
    from_pretrained env r =
      { res := .ok (.classInstance "Wav2Vec2Processor"), scannedNameTable := true,
        typeMappingLookup := false } := by
  obtain ⟨c, hc⟩ := Option.isSome_iff_exists.mp h2
  have hcn : c = "Wav2Vec2Processor" := processorClassFromName_some env _ c hc
  subst hcn
  have hp : probePhase r = (some "Wav2Vec2Processor", none, false) := by
    unfold probePhase probe5
    simp [h1, mergeAuto]
  unfold from_pretrained
  simp [hp, hc]

/-- C2 witness: the amended statement instantiated at `wavEnv`/`wavRepo`. -/
theorem c2_declared_class_resolution_witness :
    wavRepo.processorConfig = some ⟨some "Wav2Vec2Processor", none⟩ ∧
    (processor_class_from_name wavEnv "Wav2Vec2Processor").isSome = true ∧
    from_pretrained wavEnv wavRepo =
      { res := .ok (.classInstance "Wav2Vec2Processor"), scannedNameTable := true,
        typeMappingLookup := false } :=
  ⟨rfl, by decide, c2_declared_class_resolution wavEnv wavRepo rfl (by decide)⟩

/-! ## Claims C7 and C8 -/

/-- C7: when no probe yields a class, no remote code applies and the
configuration type is not in the static mapping, the resolver tries the
tokenizer, then the image processor, then the feature extractor, returning
the first success and silently discarding failures; only if all three fail
does it raise. -/
theorem c7_final_fallbacks (env : ResolveEnv) (r : Repo)
    (h1 : (probePhase r).1 = none) (h2 : (probePhase r).2.1 = none)
    (h3 : typeInStaticMapping r.modelType = false) :
    from_pretrained env r =
      { res :=
          if env.tokenizerOk then .ok .tokenizerInstance
          else if env.imageProcessorOk then .ok .imageProcessorInstance
          else if env.featureExtractorOk then .ok .featureExtractorInstance
          else .error (unrecognizedMsg r.repoId),
        scannedNameTable := false, typeMappingLookup := true } := by
  have hl := probePhase_loaded r h1
  unfold from_pretrained
  by_cases ht : env.tokenizerOk <;> by_cases hi : env.imageProcessorOk <;>
    by_cases hf : env.featureExtractorOk <;> simp [h1, h2, h3, hl, ht, hi, hf]

/-- An environment in which every external loader fails. -/
def emptyEnv : ResolveEnv :=
  ⟨fun _ _ => false, [], fun _ => false, none, fun _ _ _ _ _ => false, false, false, false⟩

/-- An environment in which only the tokenizer loader succeeds. -/
def tokEnv : ResolveEnv :=
  ⟨fun _ _ => false, [], fun _ => false, none, fun _ _ _ _ _ => false, true, false, false⟩

/-- A repository with no config files and an unmapped model type. -/
def bareRepo : Repo :=
  ⟨none, none, none, none, ⟨none, none⟩, "zzz", "user/m7"⟩

/-- C7 witness: on a bare repository with only the tokenizer loader
succeeding, the resolver returns the tokenizer. -/
theorem c7_final_fallbacks_witness :
    (probePhase bareRepo).1 = none ∧ (probePhase bareRepo).2.1 = none ∧
    typeInStaticMapping bareRepo.modelType = false ∧
    from_pretrained tokEnv bareRepo =
      { res := .ok .tokenizerInstance, scannedNameTable := false, typeMappingLookup := true } := by
  refine ⟨rfl, rfl, by decide, ?_⟩
  have h := c7_final_fallbacks tokEnv bareRepo rfl rfl (by decide)
  exact h.trans (by decide)

/-- C8: when every probe fails, the type is unmapped and all three final
fallbacks fail, the resolver raises an error whose message includes the
model identifier. -/
theorem c8_error_names_identifier (env : ResolveEnv) (r : Repo)
    (h1 : (probePhase r).1 = none) (h2 : (probePhase r).2.1 = none)
    (h3 : typeInStaticMapping r.modelType = false)
    (ht : env.tokenizerOk = false) (hi : env.imageProcessorOk = false)
    (hf : env.featureExtractorOk = false) :
    (from_pretrained env r).res = .error (unrecognizedMsg r.repoId) ∧
    strContainsStr (unrecognizedMsg r.repoId) r.repoId := by
  constructor
  · have hl := probePhase_loaded r h1
    unfold from_pretrained
    simp [h1, h2, h3, hl, ht, hi, hf]
  · exact ⟨"Unrecognized processing class in ",
      ". Cannot instantiate a processor, a tokenizer, an image processor or a feature extractor for this model. Make sure the repository contains the files of at least one of those processing classes.",
      rfl⟩

/-- C8 witness: the bare repository with every loader failing. -/
theorem c8_error_names_identifier_witness :
    (probePhase bareRepo).1 = none ∧
    typeInStaticMapping bareRepo.modelType = false ∧
    (from_pretrained emptyEnv bareRepo).res = .error (unrecognizedMsg "user/m7") ∧
    strContainsStr (unrecognizedMsg "user/m7") "user/m7" := by
  have h := c8_error_names_identifier emptyEnv bareRepo rfl rfl (by decide) rfl rfl rfl
  exact ⟨rfl, by decide, h.1, h.2⟩

/-! ## Claim C10 -/

/-! ## Helper lemmas about the weight mapper -/

theorem findMatch_eq_none (name : String) (l : List (String × String))
    (h : l.any (mappingCond name) = false) : findMatch l name = none := by
  induction l with
  | nil => rfl
  | cons p rest ih =>
    simp only [List.any_cons, Bool.or_eq_false_iff] at h
    unfold findMatch
    simp [h.1, ih h.2]

theorem findMatch_mem (l : List (String × String)) (name k mkv : String)
    (h : findMatch l name = some (k, mkv)) :
    ∃ m0, (k, m0) ∈ l ∧ mkv = addRootKey m0 ∧ mappingCond name (k, m0) = true := by
  induction l with
  | nil => simp [findMatch] at h
  | cons p rest ih =>
    rw [findMatch] at h
    split at h
    · rename_i hc
      simp only [Option.some.injEq, Prod.mk.injEq] at h
      obtain ⟨h1, h2⟩ := h
      subst h1
      exact ⟨p.2, List.mem_cons_self _ _, h2.symm, by simpa using hc⟩
    · obtain ⟨m0, hmem, hmk, hcond⟩ := ih h
      exact ⟨m0, List.mem_cons_of_mem _ hmem, hmk, hcond⟩

/-! ## Claim C4 -/

/-- C4 (amended): a source name not containing `feature_projection` whose
first substitution-table match is the key `fc1` resolves to the destination
path `wav2vec2.encoder.layers.<N>.feed_forward.intermediate_dense`, where `N`
is the token extracted as `name.split("fc1")[0].split(".")[-2]` (the value
from the table, prefixed with the `wav2vec2.` submodel root). -/
theorem c4_fc1_destination (name mkv idx : String)
    (_hfp : strContains name "feature_projection" = false)
    (hfind : findMatch MAPPING name = some ("fc1", mkv))
    (hidx : pyGetNeg2 (pySplit ((pySplit name "fc1").headD "") ".") = .ok idx) :
    destinationOf name =
      some (.ok ("wav2vec2.encoder.layers." ++ idx ++ ".feed_forward.intermediate_dense")) := by
  obtain ⟨m0, hmem, hmk, _⟩ := findMatch_mem MAPPING name "fc1" mkv hfind
  have hm0 : m0 = "encoder.layers.*.feed_forward.intermediate_dense" := by
    simp [MAPPING, Prod.mk.injEq] at hmem
    exact hmem
  subst hm0
  have hmk2 : mkv = "wav2vec2.encoder.layers.*.feed_forward.intermediate_dense" := by
    rw [hmk]; decide
  have hd : destinationOf name =
      some (resolveMapped name "fc1" "wav2vec2.encoder.layers.*.feed_forward.intermediate_dense") := by
    unfold destinationOf
    rw [hfind, hmk2]
  rw [hd]
  unfold resolveMapped
  rw [if_pos (by decide), hidx]
  have hsp : pySplit "wav2vec2.encoder.layers.*.feed_forward.intermediate_dense" "*" =
      ["wav2vec2.encoder.layers.", ".feed_forward.intermediate_dense"] := by decide
  simp [replaceStar, hsp, joinWith, Except.map]

/-- C4 counterexample: on `encoder.layers.3.fc1.weight` the mapper resolves
the destination to `wav2vec2.encoder.layers.3.feed_forward.intermediate_dense`,
not to the claimed `encoder.layers.3.feed_forward.intermediate_dense`. -/
theorem c4_destination_root_counterexample :
    destinationOf "encoder.layers.3.fc1.weight" =
      some (.ok "wav2vec2.encoder.layers.3.feed_forward.intermediate_dense") ∧
    decide ("wav2vec2.encoder.layers.3.feed_forward.intermediate_dense" =
      "encoder.layers.3.feed_forward.intermediate_dense") = false :=
  ⟨by decide, by decide⟩

/-- C4 witness: the amended statement instantiated at
`encoder.layers.3.fc1.weight`. -/
theorem c4_fc1_destination_witness :
    strContains "encoder.layers.3.fc1.weight" "feature_projection" = false ∧
    findMatch MAPPING "encoder.layers.3.fc1.weight" =
      some ("fc1", "wav2vec2.encoder.layers.*.feed_forward.intermediate_dense") ∧
    destinationOf "encoder.layers.3.fc1.weight" =
      some (.ok ("wav2vec2.encoder.layers." ++ "3" ++ ".feed_forward.intermediate_dense")) :=
  ⟨by decide, by decide,
   c4_fc1_destination "encoder.layers.3.fc1.weight"
     "wav2vec2.encoder.layers.*.feed_forward.intermediate_dense" "3"
     (by decide) (by decide) (by decide)⟩

/-! ## Claim C3 -/

/-- C3 (amended): the layer-norm branch of `load_conv_layer` depends on group
normalization the other way around from the claim: when group normalization
is in use only layer 0 qualifies and a type-2 norm parameter of any other
layer is appended to the unused list, while when group normalization is
unused every layer qualifies for layer-norm assignment. -/
theorem c3_norm_branch_amended :
    (∀ (fn : String) (v : Tensor) (fe : List ConvLayer) (unused : List String) (l : Nat),
      convIndex fn 0 = .ok l → convIndex fn 1 = .ok 2 → l ≠ 0 →
      load_conv_layer fn v fe unused true = .ok (fe, unused ++ [fn])) ∧
    (∀ (fn : String) (v : Tensor) (fe : List ConvLayer) (unused : List String) (l : Nat)
      (cl : ConvLayer),
      convIndex fn 0 = .ok l → convIndex fn 1 = .ok 2 →
      strContains (convName fn) "bias" = false →
      strContains (convName fn) "weight" = true →
      fe[l]? = some cl → v.shape = cl.layer_norm.weight.shape →
      load_conv_layer fn v fe unused false =
        .ok (fe.set l { cl with layer_norm := { cl.layer_norm with weight := v } }, unused)) := by
  constructor
  · intro fn v fe unused l h0 h1 hl
    unfold load_conv_layer
    rw [h0, h1]
    simp [Bind.bind, Except.bind, normBranchCond, hl]
  · intro fn v fe unused l cl h0 h1 hb hw hfe hs
    unfold load_conv_layer
    rw [h0, h1]
    simp [Bind.bind, Except.bind, normBranchCond, hb, hw, getConvLayer, hfe, hs]

/-- The feature extractor used in the C3 scenarios: two conv layers with
shape-`[4]` parameters. -/
def c3Fe : List ConvLayer :=
  [⟨⟨⟨[4], 0⟩, ⟨[4], 1⟩⟩, ⟨⟨[4], 2⟩, ⟨[4], 3⟩⟩⟩,
   ⟨⟨⟨[4], 10⟩, ⟨[4], 11⟩⟩, ⟨⟨[4], 12⟩, ⟨[4], 13⟩⟩⟩]

/-- The state of `c3Fe` after assigning the tag-99 tensor into the layer-norm weight of layer 1. -/
def c3FeAfter : List ConvLayer :=
  [⟨⟨⟨[4], 0⟩, ⟨[4], 1⟩⟩, ⟨⟨[4], 2⟩, ⟨[4], 3⟩⟩⟩,
   ⟨⟨⟨[4], 10⟩, ⟨[4], 11⟩⟩, ⟨⟨[4], 99⟩, ⟨[4], 13⟩⟩⟩]

/-- C3 counterexample: with group normalization unused, the type-2 norm
weight of layer 1 (not layer 0) is assigned into the destination model and
is not treated as unused, refuting the claim that only layer 0 qualifies
when group normalization is unused. -/
theorem c3_norm_branch_counterexample :
    load_conv_layer "conv_layers.1.2.weight" ⟨[4], 99⟩ c3Fe [] false = .ok (c3FeAfter, []) ∧
    decide (c3FeAfter = c3Fe) = false ∧
    decide (load_conv_layer "conv_layers.1.2.weight" ⟨[4], 99⟩ c3Fe [] false =
      .ok (c3Fe, ["conv_layers.1.2.weight"])) = false :=
  ⟨by decide, by decide, by decide⟩

/-- C3 witness: both branches of the amended statement instantiated on
`conv_layers.1.2.weight`. -/
theorem c3_norm_branch_amended_witness :
    (convIndex "conv_layers.1.2.weight" 0 = .ok 1 ∧
     load_conv_layer "conv_layers.1.2.weight" ⟨[4], 99⟩ c3Fe [] true =
       .ok (c3Fe, ["conv_layers.1.2.weight"])) ∧
    (strContains (convName "conv_layers.1.2.weight") "weight" = true ∧
     load_conv_layer "conv_layers.1.2.weight" ⟨[4], 99⟩ c3Fe [] false = .ok (c3FeAfter, [])) := by
  constructor
  · exact ⟨by decide,
      c3_norm_branch_amended.1 "conv_layers.1.2.weight" ⟨[4], 99⟩ c3Fe [] 1
        (by decide) (by decide) (by decide)⟩
  · refine ⟨by decide, ?_⟩
    have h := c3_norm_branch_amended.2 "conv_layers.1.2.weight" ⟨[4], 99⟩ c3Fe [] 1
      ⟨⟨⟨[4], 10⟩, ⟨[4], 11⟩⟩, ⟨⟨[4], 12⟩, ⟨[4], 13⟩⟩⟩
      (by decide) (by decide) (by decide) (by decide) (by decide) (by decide)
    exact h.trans (by decide)

/-! ## Claim C9 -/

/-- C9: a source parameter containing `conv_layers` is always marked used;
with type index 0 and neither `bias` nor `weight` in the name, the step
of `recursively_load_weights` neither assigns anything nor appends the name
to the unused list — the parameter is dropped without diagnostic. -/
theorem c9_conv_dropped_silently (d : Dest) (unused : List String) (fn : String)
    (v : Tensor) (l : Nat)
    (hc : strContains fn "conv_layers" = true)
    (h0 : convIndex fn 0 = .ok l) (h1 : convIndex fn 1 = .ok 0)
    (hb : strContains (convName fn) "bias" = false)
    (hw : strContains (convName fn) "weight" = false) :
    stepParam d unused (fn, v) = .ok (d, unused) := by
  unfold stepParam load_conv_layer
  rw [h0, h1]
  simp [Bind.bind, Except.bind, hc, hb, hw]

/-- A destination model for the C9 witness. -/
def c9Dest : Dest := ⟨[("x", ⟨[2], 1⟩)], c3Fe, "group"⟩

/-- C9 witness: the running-mean parameter of conv layer 0 is silently
dropped. -/
theorem c9_conv_dropped_silently_witness :
    strContains "conv_layers.0.0.running_mean" "conv_layers" = true ∧
    stepParam c9Dest [] ("conv_layers.0.0.running_mean", ⟨[4], 5⟩) = .ok (c9Dest, []) :=
  ⟨by decide,
   c9_conv_dropped_silently c9Dest [] "conv_layers.0.0.running_mean" ⟨[4], 5⟩ 0
     (by decide) (by decide) (by decide) (by decide) (by decide)⟩

/-! ## Claim C5 -/

/-- C5: a source parameter matched by no rule of the weight mapper (not a
conv-layer name, and no substitution-table entry matches) is appended to the
unused-weights list and never causes the step to fail; and every successful
run of `recursively_load_weights` reports the unused list in exactly one
warning emitted after all parameters are processed. -/
theorem c5_unmatched_nonfatal :
    (∀ (name : String) (v : Tensor) (d : Dest) (unused : List String),
      strContains name "conv_layers" = false →
      MAPPING.any (mappingCond name) = false →
      stepParam d unused (name, v) = .ok (d, unused ++ [name])) ∧
    (∀ (items : List (String × Tensor)) (d : Dest) (out : LoadOutcome),
      recursively_load_weights items d = .ok out →
      out.warnings = ["Unused weights: " ++ toString out.unused]) := by
  constructor
  · intro name v d unused hc hm
    have hf := findMatch_eq_none name MAPPING hm
    unfold stepParam load_wav2vec2_layer
    simp [Bind.bind, Except.bind, hc, hf]
  · intro items d out h
    unfold recursively_load_weights at h
    cases hl : loadAll items d [] with
    | error e => rw [hl] at h; simp [Bind.bind, Except.bind] at h
    | ok rr =>
      rw [hl] at h
      simp only [Bind.bind, Except.bind, Except.ok.injEq] at h
      rw [← h]

/-- A destination model for the C5 witness. -/
def c5Dest : Dest := ⟨[("x", ⟨[2], 1⟩)], [], "group"⟩

/-- C5 witness: an unmatched parameter is appended to the unused list and
the run emits the single closing warning. -/
theorem c5_unmatched_nonfatal_witness :
    (strContains "some_unrelated.thing" "conv_layers" = false ∧
     stepParam c5Dest [] ("some_unrelated.thing", ⟨[2], 5⟩) =
       .ok (c5Dest, [] ++ ["some_unrelated.thing"])) ∧
    (LoadOutcome.mk c5Dest ["some_unrelated.thing"]
        ["Unused weights: " ++ toString ["some_unrelated.thing"]]).warnings =
      ["Unused weights: " ++
        toString (LoadOutcome.mk c5Dest ["some_unrelated.thing"]
          ["Unused weights: " ++ toString ["some_unrelated.thing"]]).unused] := by
  constructor
  · exact ⟨by decide,
      c5_unmatched_nonfatal.1 "some_unrelated.thing" ⟨[2], 5⟩ c5Dest [] (by decide) (by decide)⟩
  · exact c5_unmatched_nonfatal.2 [("some_unrelated.thing", ⟨[2], 5⟩)] c5Dest _ (by rfl)

/-! ## Claim C6 -/

/-- C6: whenever a matched source tensor's shape differs from the shape of
the resolved destination parameter, the weight mapper raises a shape-mismatch
error whose message contains both shapes and the source parameter name, and
no assignment is returned: first conjunct for the generic `set_recursively`
path (after the index-0 reduction in the compatibility-layer case), then the
four shape-checked branches of `load_conv_layer` (conv bias, conv weight,
layer-norm bias, layer-norm weight), and finally the containment of the
name and both shapes in the `load_conv_layer` message. -/
theorem c6_shape_mismatch_fatal :
    (∀ (key : String) (value : Tensor) (full_name : String) (wt : Option String)
      (m : HfFlat) (pv : String × Tensor) (target : Tensor),
      resolveTarget key value full_name wt m = .ok pv →
      assocLookup m pv.1 = some target →
      target.shape ≠ pv.2.shape →
      set_recursively key value full_name wt m =
        .error (shapeMsg key (effectiveWeightType full_name wt) target.shape pv.2.shape full_name) ∧
      strContainsStr
        (shapeMsg key (effectiveWeightType full_name wt) target.shape pv.2.shape full_name)
        full_name ∧
      strContainsStr
        (shapeMsg key (effectiveWeightType full_name wt) target.shape pv.2.shape full_name)
        (toString target.shape) ∧
      strContainsStr
        (shapeMsg key (effectiveWeightType full_name wt) target.shape pv.2.shape full_name)
        (toString pv.2.shape)) ∧
    (∀ (fn : String) (v : Tensor) (fe : List ConvLayer) (unused : List String)
      (ugn : Bool) (l : Nat) (cl : ConvLayer),
      convIndex fn 0 = .ok l → convIndex fn 1 = .ok 0 → fe[l]? = some cl →
      strContains (convName fn) "bias" = true →
      v.shape ≠ cl.conv.bias.shape →
      load_conv_layer fn v fe unused ugn = .error (convShapeMsg fn v.shape cl.conv.bias.shape)) ∧
    (∀ (fn : String) (v : Tensor) (fe : List ConvLayer) (unused : List String)
      (ugn : Bool) (l : Nat) (cl : ConvLayer),
      convIndex fn 0 = .ok l → convIndex fn 1 = .ok 0 → fe[l]? = some cl →
      strContains (convName fn) "bias" = false →
      strContains (convName fn) "weight" = true →
      v.shape ≠ cl.conv.weight.shape →
      load_conv_layer fn v fe unused ugn = .error (convShapeMsg fn v.shape cl.conv.weight.shape)) ∧
    (∀ (fn : String) (v : Tensor) (fe : List ConvLayer) (unused : List String)
      (ugn : Bool) (l : Nat) (cl : ConvLayer),
      convIndex fn 0 = .ok l → convIndex fn 1 = .ok 2 → fe[l]? = some cl →
      normBranchCond 2 l ugn = true →
      strContains (convName fn) "bias" = true →
      v.shape ≠ cl.layer_norm.bias.shape →
      load_conv_layer fn v fe unused ugn =
        .error (convShapeMsg fn v.shape cl.layer_norm.bias.shape)) ∧
    (∀ (fn : String) (v : Tensor) (fe : List ConvLayer) (unused : List String)
      (ugn : Bool) (l : Nat) (cl : ConvLayer),
      convIndex fn 0 = .ok l → convIndex fn 1 = .ok 2 → fe[l]? = some cl →
      normBranchCond 2 l ugn = true →
      strContains (convName fn) "bias" = false →
      strContains (convName fn) "weight" = true →
      v.shape ≠ cl.layer_norm.weight.shape →
      load_conv_layer fn v fe unused ugn =
        .error (convShapeMsg fn v.shape cl.layer_norm.weight.shape)) ∧
    (∀ (fn : String) (vs ds : List Nat),
      strContainsStr (convShapeMsg fn vs ds) fn ∧
      strContainsStr (convShapeMsg fn vs ds) (toString vs) ∧
      strContainsStr (convShapeMsg fn vs ds) (toString ds)) := by
  refine ⟨?_, ?_, ?_, ?_, ?_, ?_⟩
  · intro key value full_name wt m pv target hres hlook hne
    refine ⟨?_, ?_, ?_, ?_⟩
    · unfold set_recursively
      rw [hres]
      simp [Bind.bind, Except.bind, hlook, hne]
    · exact ⟨"Shape of hf " ++ wtRender key (effectiveWeightType full_name wt) ++ " is " ++
        toString target.shape ++ ", but should be " ++ toString pv.2.shape ++ " for ", "",
        by simp [shapeMsg, strAppend_assoc, strAppend_empty]⟩
    · exact ⟨"Shape of hf " ++ wtRender key (effectiveWeightType full_name wt) ++ " is ",
        ", but should be " ++ toString pv.2.shape ++ " for " ++ full_name,
        by simp [shapeMsg, strAppend_assoc]⟩
    · exact ⟨"Shape of hf " ++ wtRender key (effectiveWeightType full_name wt) ++ " is " ++
        toString target.shape ++ ", but should be ",
        " for " ++ full_name,
        by simp [shapeMsg, strAppend_assoc]⟩
  · intro fn v fe unused ugn l cl h0 h1 hfe hb hne
    unfold load_conv_layer
    rw [h0, h1]
    simp [Bind.bind, Except.bind, getConvLayer, hfe, hb, hne]
  · intro fn v fe unused ugn l cl h0 h1 hfe hb hw hne
    unfold load_conv_layer
    rw [h0, h1]
    simp [Bind.bind, Except.bind, getConvLayer, hfe, hb, hw, hne]
  · intro fn v fe unused ugn l cl h0 h1 hfe hnb hb hne
    unfold load_conv_layer
    rw [h0, h1]
    simp [Bind.bind, Except.bind, getConvLayer, hfe, hnb, hb, hne]
  · intro fn v fe unused ugn l cl h0 h1 hfe hnb hb hw hne
    unfold load_conv_layer
    rw [h0, h1]
    simp [Bind.bind, Except.bind, getConvLayer, hfe, hnb, hb, hw, hne]
  · intro fn vs ds
    refine ⟨?_, ?_, ?_⟩
    · exact ⟨"", " has size " ++ toString vs ++ ", but " ++ toString ds ++ " was found.",
        by simp [convShapeMsg, strAppend_assoc, strEmpty_append]⟩
    · exact ⟨fn ++ " has size ", ", but " ++ toString ds ++ " was found.",
        by simp [convShapeMsg, strAppend_assoc]⟩
    · exact ⟨fn ++ " has size " ++ toString vs ++ ", but ", " was found.",
        by simp [convShapeMsg, strAppend_assoc]⟩

/-- The destination map for the C6 witness: the example of the spec, a `(3, 3)`
destination parameter receiving a `(4, 4)` source tensor. -/
def c6Model : HfFlat := [("lm_head.weight", ⟨[3, 3], 0⟩)]

/-- C6 witness: the `(4,4)` vs `(3,3)` example of the spec raises the
shape-mismatch error through `set_recursively`, and each shape-checked
branch of `load_conv_layer` raises on a `[5]` tensor aimed at a `[4]`
destination parameter. -/
theorem c6_shape_mismatch_fatal_witness :
    (resolveTarget "lm_head" ⟨[4, 4], 7⟩ "w2v_encoder.proj.weight" (some "weight") c6Model =
      .ok ("lm_head.weight", ⟨[4, 4], 7⟩) ∧
     set_recursively "lm_head" ⟨[4, 4], 7⟩ "w2v_encoder.proj.weight" (some "weight") c6Model =
      .error (shapeMsg "lm_head" (effectiveWeightType "w2v_encoder.proj.weight" (some "weight"))
        [3, 3] [4, 4] "w2v_encoder.proj.weight")) ∧
    load_conv_layer "conv_layers.0.0.bias" ⟨[5], 9⟩ c3Fe [] true =
      .error (convShapeMsg "conv_layers.0.0.bias" [5] [4]) ∧
    load_conv_layer "conv_layers.0.0.weight" ⟨[5], 9⟩ c3Fe [] true =
      .error (convShapeMsg "conv_layers.0.0.weight" [5] [4]) ∧
    load_conv_layer "conv_layers.0.2.bias" ⟨[5], 9⟩ c3Fe [] true =
      .error (convShapeMsg "conv_layers.0.2.bias" [5] [4]) ∧
    load_conv_layer "conv_layers.1.2.weight" ⟨[5], 9⟩ c3Fe [] false =
      .error (convShapeMsg "conv_layers.1.2.weight" [5] [4]) ∧
    strContainsStr (convShapeMsg "conv_layers.0.0.bias" [5] [4]) "conv_layers.0.0.bias" := by
  refine ⟨⟨by decide, ?_⟩, ?_, ?_, ?_, ?_, ?_⟩
  · exact (c6_shape_mismatch_fatal.1 "lm_head" ⟨[4, 4], 7⟩ "w2v_encoder.proj.weight"
      (some "weight") c6Model ("lm_head.weight", ⟨[4, 4], 7⟩) ⟨[3, 3], 0⟩
      (by decide) (by decide) (by decide)).1
  · exact c6_shape_mismatch_fatal.2.1 "conv_layers.0.0.bias" ⟨[5], 9⟩ c3Fe [] true 0
      ⟨⟨⟨[4], 0⟩, ⟨[4], 1⟩⟩, ⟨⟨[4], 2⟩, ⟨[4], 3⟩⟩⟩
      (by decide) (by decide) (by decide) (by decide) (by decide)
  · exact c6_shape_mismatch_fatal.2.2.1 "conv_layers.0.0.weight" ⟨[5], 9⟩ c3Fe [] true 0
      ⟨⟨⟨[4], 0⟩, ⟨[4], 1⟩⟩, ⟨⟨[4], 2⟩, ⟨[4], 3⟩⟩⟩
      (by decide) (by decide) (by decide) (by decide) (by decide) (by decide)
  · exact c6_shape_mismatch_fatal.2.2.2.1 "conv_layers.0.2.bias" ⟨[5], 9⟩ c3Fe [] true 0
      ⟨⟨⟨[4], 0⟩, ⟨[4], 1⟩⟩, ⟨⟨[4], 2⟩, ⟨[4], 3⟩⟩⟩
      (by decide) (by decide) (by decide) (by decide) (by decide) (by decide)
  · exact c6_shape_mismatch_fatal.2.2.2.2.1 "conv_layers.1.2.weight" ⟨[5], 9⟩ c3Fe [] false 1
      ⟨⟨⟨[4], 10⟩, ⟨[4], 11⟩⟩, ⟨⟨[4], 12⟩, ⟨[4], 13⟩⟩⟩
      (by decide) (by decide) (by decide) (by decide) (by decide) (by decide) (by decide)
  · exact (c6_shape_mismatch_fatal.2.2.2.2.2 "conv_layers.0.0.bias" [5] [4]).1

/-- C10: calling the `AutoProcessor` constructor directly always raises an
`OSError` whose message points to `from_pretrained`; no instance is ever
produced. -/
theorem c10_init_always_raises :
    autoProcessorInit =
      .error "AutoProcessor is designed to be instantiated using the `AutoProcessor.from_pretrained(pretrained_model_name_or_path)` method." ∧
    strContainsStr
      "AutoProcessor is designed to be instantiated using the `AutoProcessor.from_pretrained(pretrained_model_name_or_path)` method."
      "from_pretrained" ∧
    initSucceeded autoProcessorInit = false :=
  ⟨rfl,
   ⟨"AutoProcessor is designed to be instantiated using the `AutoProcessor.",
    "(pretrained_model_name_or_path)` method.", by decide⟩,
   rfl⟩
